import Mathlib

/-!
Verification of the notification polling, deduplication and dispatch core of
the Moodle-Stalker repository, shallowly embedded from
`src/src/moodle/moodle_notification_handler.py` and
`src/src/notification/notification_sender.py`.

Python dicts carrying a notification are embedded as a structure whose
optional fields model `dict.get`; machine control flow (early returns,
try/except, the retry loop) is embedded as explicit recursion over the
sequence of outcomes of the external calls.
-/

namespace MoodleStalker

/-- A notification record fetched from the remote API.  The code only ever
reads `notification.get("id")`; the rest of the dict is opaque payload. -/
structure Notification where
  idField : Option Int
  payload : String
deriving Repr, DecidableEq

/-- The classification of one completed fetch, named after the log lines of
`fetch_newest_notification`: "No notifications fetched." / missing id warning
(`Absent`), "First notification fetched" (`First`), "New notification found"
(`New`), "No new notifications" (`Stale`). -/
inductive Verdict
  | Absent
  | First
  | New
  | Stale
deriving Repr, DecidableEq

/-- The observable result of one body iteration of
`MoodleNotificationHandler.fetch_newest_notification`
(src/src/moodle/moodle_notification_handler.py, lines 93-125): the new value
of `self.last_notification_id`, the value returned to the caller, which
branch ran, and whether the missing-id warning was logged. -/
structure StepResult where
  cursor : Option Int
  ret : Option Notification
  verdict : Verdict
  warned : Bool
deriving Repr, DecidableEq

/-- One body iteration of `fetch_newest_notification`, as a function of the
current cursor `last_notification_id` and the value returned by
`fetch_latest_notification` (lines 93-125 of
src/src/moodle/moodle_notification_handler.py):
if no notification was fetched, return None; if the notification has no
`id` field, log a warning and return None; if the cursor is unset, set it
and return the notification; if the id is greater than the cursor, update
the cursor and return the notification; otherwise return None. -/
def fetch_newest_step (last : Option Int) (fetched : Option Notification) :
    StepResult :=
  match fetched with
  | some n =>
    match n.idField with
    | none =>
      { cursor := last, ret := none, verdict := .Absent, warned := true }
    | some nid =>
      match last with
      | none =>
        { cursor := some nid, ret := some n, verdict := .First,
          warned := false }
      | some l =>
        if nid > l then
          { cursor := some nid, ret := some n, verdict := .New,
            warned := false }
        else
          { cursor := some l, ret := none, verdict := .Stale,
            warned := false }
  | none =>
    { cursor := last, ret := none, verdict := .Absent, warned := false }

/-- The outcome of one polling attempt as seen by
`fetch_newest_notification`: either the inner fetch raised (the `except`
branch: log, sleep, cursor untouched) or it completed with an optional
notification. -/
inductive FetchOutcome
  | failure
  | success (r : Option Notification)
deriving Repr, DecidableEq

/-- Effect of one polling attempt on the cursor: a raised fetch leaves the
cursor untouched (the `except` branch of `fetch_newest_notification` only
logs and sleeps); a completed fetch runs the classifier body. -/
def cursorStep (last : Option Int) (o : FetchOutcome) : Option Int :=
  match o with
  | .failure => last
  | .success r => (fetch_newest_step last r).cursor

/-- The verdict a completed attempt would produce (`failure` produces none;
the classifier is never reached). -/
def outcomeVerdict (last : Option Int) (o : FetchOutcome) : Option Verdict :=
  match o with
  | .failure => none
  | .success r => some (fetch_newest_step last r).verdict

/-- Cursor state after a sequence of polling attempts processed by a single
handler instance. -/
def runCursor (last : Option Int) (os : List FetchOutcome) : Option Int :=
  os.foldl cursorStep last

/-- The response of one `api.get_popup_notifications` call: either it raises
(any exception) or it returns a dict whose `notifications` list we keep. -/
abbrev PopupResult := Except Unit (List Notification)

/-- The retry loop of `MoodleNotificationHandler.fetch_latest_notification`
(src/src/moodle/moodle_notification_handler.py, lines 69-86), run against a
finite prefix of attempt outcomes: `retry_delay` starts at `d`; a raised
attempt logs, sleeps `retry_delay` seconds and retries with
`retry_delay + 2`; a completed attempt returns `notifications[0]` if the
`notifications` list is non-empty, else None.  Returns the function result
(`none` if the supplied attempts were exhausted, i.e. the loop is still
running) together with the list of sleep durations performed. -/
def fetch_latest_go (d : Int) :
    List PopupResult → Option (Option Notification) × List Int
  | [] => (none, [])
  | .ok resp :: _ => (some resp.head?, [])
  | .error _ :: rest =>
    let r := fetch_latest_go (d + 2) rest
    (r.1, d :: r.2)

/-- `fetch_latest_notification` starts its retry loop with
`retry_delay = 60`. -/
def fetch_latest_notification (attempts : List PopupResult) :
    Option (Option Notification) × List Int :=
  fetch_latest_go 60 attempts

/-- A user record as returned by `api.core_user_get_users_by_field`; the
sender code reads the `fullname` and `profileimageurl` keys. -/
structure UserInfo where
  fullname : String
  profileimageurl : String
deriving Repr, DecidableEq

/-- `MoodleNotificationHandler.user_id_from`
(src/src/moodle/moodle_notification_handler.py, lines 134-152), as a function
of the outcome of the `core_user_get_users_by_field` call: on an exception it
logs and returns None; on a response it returns the first element if the list
is non-empty (Python truthiness of a list), else None. -/
def user_id_from (apiResult : Except Unit (List UserInfo)) : Option UserInfo :=
  match apiResult with
  | .error _ => none
  | .ok response => response.head?

/-- One observable action of `NotificationSender.send`: a deliver call on a
sink, or the `logging.exception("Failed to send notification")` line of its
`except` branch. -/
inductive Event
  | pushbulletDeliver (subject summary : String)
  | discordDeliver (subject text summary fullname pictureUrl : String)
  | logSendFailure
deriving Repr, DecidableEq

/-- Whether an event is a Discord deliver call. -/
def Event.isDiscordDeliver : Event → Bool
  | .discordDeliver _ _ _ _ _ => true
  | _ => false

/-- Whether an event is a Pushbullet deliver call. -/
def Event.isPushbulletDeliver : Event → Bool
  | .pushbulletDeliver _ _ => true
  | _ => false

/-- The external outcomes one `NotificationSender.send` call can observe:
the two enablement flags read at construction, whether
`pb.send_notification` raises, the outcome of the
`core_user_get_users_by_field` call behind `user_id_from`, and whether the
`webhook_discord` call raises. -/
structure SendEnv where
  pushbullet_state : Int
  webhook_state : Int
  pushbulletResult : Except Unit Unit
  userLookup : Except Unit (List UserInfo)
  discordResult : Except Unit Unit
deriving Repr

/-- The `try` block of `NotificationSender.send`
(src/src/notification/notification_sender.py, lines 60-93): the deliver
calls performed, in order, and whether an exception escaped the block.
If `pushbullet_state == 1`, `pb.send_notification(subject, summary)` runs
first; an exception there aborts the rest of the block.  If
`webhook_state == 1`, a supplied `useridfrom` is resolved via
`user_id_from`; subscripting its result (`useridfrom_info["fullname"]`)
raises when the result is None, otherwise the resolved name and picture are
used; with no `useridfrom` the hardcoded fallback identity is used; then
`webhook_discord(...)` runs, which may itself raise. -/
def send_try (env : SendEnv) (subject text summary : String)
    (useridfrom : Option Int) : List Event × Bool :=
  let pb : List Event × Bool :=
    if env.pushbullet_state = 1 then
      match env.pushbulletResult with
      | .ok _ => ([Event.pushbulletDeliver subject summary], false)
      | .error _ => ([Event.pushbulletDeliver subject summary], true)
    else ([], false)
  if pb.2 then pb
  else
    let discord : List Event × Bool :=
      if env.webhook_state = 1 then
        match useridfrom with
        | some _ =>
          match user_id_from env.userLookup with
          | none => ([], true)
          | some info =>
            match env.discordResult with
            | .ok _ =>
              ([Event.discordDeliver subject text summary info.fullname
                  info.profileimageurl], false)
            | .error _ =>
              ([Event.discordDeliver subject text summary info.fullname
                  info.profileimageurl], true)
        | none =>
          match env.discordResult with
          | .ok _ =>
            ([Event.discordDeliver subject text summary "EvickaStudio"
                "https://avatars.githubusercontent.com/u/68477970"], false)
          | .error _ =>
            ([Event.discordDeliver subject text summary "EvickaStudio"
                "https://avatars.githubusercontent.com/u/68477970"], true)
      else ([], false)
    (pb.1 ++ discord.1, discord.2)

/-- The undecorated body of `NotificationSender.send`
(src/src/notification/notification_sender.py, lines 41-96): the `try` block,
whose exception is caught by `except Exception as e`, logged, and re-raised
(`raise e`).  The Bool records whether the body raises to its caller. -/
def send_body (env : SendEnv) (subject text summary : String)
    (useridfrom : Option Int) : List Event × Bool :=
  let r := send_try env subject text summary useridfrom
  if r.2 then (r.1 ++ [Event.logSendFailure], true) else r

/-- Modelled from the spec: the `handle_exceptions` decorator lives in
`src/utils`, which is not under src/.  Per the spec, a sink failure "is
reported (logged) but not re-raised to the caller of `dispatch`" and "all
failures are operational log events": the decorator catches any exception
from the wrapped call, logs it, and returns normally. -/
def handle_exceptions (r : List Event × Bool) : List Event × Bool :=
  (r.1, false)

/-- `NotificationSender.send` as invoked by callers: the body wrapped in the
`@handle_exceptions` decorator. -/
def send (env : SendEnv) (subject text summary : String)
    (useridfrom : Option Int) : List Event × Bool :=
  handle_exceptions (send_body env subject text summary useridfrom)

/-- Modelled from the spec: the `Config` class lives in `src/utils`, which is
not under src/.  Per the spec it is a key/value store scoped by section; the
call sites (`config.get_config(section, key)` tested for truthiness in
`_get_config_value`) show `get_config` returning the stored string, absent
when the key is missing.  Only the sections and keys the two embedded files
read are modelled. -/
structure Config where
  moodle_url : Option String
  moodle_username : Option String
  moodle_password : Option String
  pushbullet_api_key : Option String
  pushbullet_enabled : Option String
  discord_webhook_url : Option String
  discord_enabled : Option String
  summary_model : Option String
deriving Repr, DecidableEq

/-- Modelled from the spec: `Config.get_config(section, key)` returns the
configured value for the section/key pair, absent when missing. -/
def get_config (c : Config) (sectionName key : String) : Option String :=
  if sectionName = "moodle" ∧ key = "MOODLE_URL" then c.moodle_url
  else if sectionName = "moodle" ∧ key = "MOODLE_USERNAME" then c.moodle_username
  else if sectionName = "moodle" ∧ key = "MOODLE_PASSWORD" then c.moodle_password
  else if sectionName = "pushbullet" ∧ key = "PUSHBULLET_API_KEY" then
    c.pushbullet_api_key
  else if sectionName = "pushbullet" ∧ key = "ENABLED" then c.pushbullet_enabled
  else if sectionName = "discord" ∧ key = "WEBHOOK_URL" then c.discord_webhook_url
  else if sectionName = "discord" ∧ key = "ENABLED" then c.discord_enabled
  else if sectionName = "summary" ∧ key = "MODEL" then c.summary_model
  else none

/-- Python truthiness of an optional string: None and the empty string are
falsy. -/
def truthy : Option String → Bool
  | none => false
  | some s => !(s = "")

/-- `MoodleNotificationHandler._get_config_value`
(src/src/moodle/moodle_notification_handler.py, lines 33-42): returns the
configuration value if truthy, otherwise raises ValueError. -/
def _get_config_value (c : Config) (sectionName key : String) :
    Except String String :=
  match get_config c sectionName key with
  | some v =>
    if v = "" then
      .error ("Configuration value " ++ key ++ " is missing in section "
        ++ sectionName ++ ".")
    else .ok v
  | none =>
    .error ("Configuration value " ++ key ++ " is missing in section "
      ++ sectionName ++ ".")

/-- `MoodleNotificationHandler.__init__` together with the private
`__login` it calls (src/src/moodle/moodle_notification_handler.py, lines
17-63), restricted to its configuration reads: MOODLE_URL, then (inside
`__login`) MOODLE_USERNAME and MOODLE_PASSWORD, each via
`_get_config_value`; any exception is logged and re-raised.  The external
`MoodleAPI` construction, `api.login` and `get_user_id` calls are assumed
to succeed, which isolates the configuration behaviour the claim is
about. -/
def moodle_handler_init (c : Config) : Except String Unit := do
  let _ ← _get_config_value c "moodle" "MOODLE_URL"
  let _ ← _get_config_value c "moodle" "MOODLE_USERNAME"
  let _ ← _get_config_value c "moodle" "MOODLE_PASSWORD"
  pure ()

/-- Decimal digit value of a character, if any (code points 48 through 57
are the digits). -/
def charDigit (c : Char) : Option Nat :=
  if 48 ≤ c.toNat ∧ c.toNat ≤ 57 then some (c.toNat - 48) else none

/-- Value of a run of decimal digits, None if a non-digit occurs. -/
def digitsVal : List Char → Nat → Option Nat
  | [], acc => some acc
  | c :: cs, acc =>
    match charDigit c with
    | some d => digitsVal cs (acc * 10 + d)
    | none => none

/-- Decimal integer literal parse: an optional leading minus followed by a
non-empty digit run. -/
def parseIntChars : List Char → Option Int
  | '-' :: c :: cs => (digitsVal (c :: cs) 0).map fun n => -(n : Int)
  | c :: cs => (digitsVal (c :: cs) 0).map fun n => (n : Int)
  | [] => none

/-- Python `int(x)` applied to the result of a `get_config` call: raises
TypeError on None and ValueError on a non-numeric string. -/
def py_int (v : Option String) : Except String Int :=
  match v with
  | none => .error "int() argument must not be None"
  | some s =>
    match parseIntChars s.data with
    | some n => .ok n
    | none => .error "invalid literal for int()"

/-- The attribute values stored by a completed `NotificationSender.__init__`. -/
structure SenderState where
  pushbullet_key : Option String
  pushbullet_state : Int
  webhook_url : Option String
  webhook_state : Int
  model : Option String
deriving Repr, DecidableEq

/-- The undecorated body of `NotificationSender.__init__`
(src/src/notification/notification_sender.py, lines 24-37): reads
PUSHBULLET_API_KEY and WEBHOOK_URL without any missing-value check, converts
the two ENABLED flags with `int(...)`, reads summary MODEL unchecked, then
constructs `MoodleNotificationHandler(config)`, whose configuration errors
propagate. -/
def notification_sender_init (c : Config) : Except String SenderState := do
  let key := get_config c "pushbullet" "PUSHBULLET_API_KEY"
  let pstate ← py_int (get_config c "pushbullet" "ENABLED")
  let url := get_config c "discord" "WEBHOOK_URL"
  let wstate ← py_int (get_config c "discord" "ENABLED")
  let model := get_config c "summary" "MODEL"
  let _ ← moodle_handler_init c
  pure { pushbullet_key := key, pushbullet_state := pstate,
         webhook_url := url, webhook_state := wstate, model := model }

/-- Whether an `Except` computation completed without raising. -/
def exceptOk {α : Type} : Except String α → Bool
  | .ok _ => true
  | .error _ => false

/-- A notification dict carrying a given id. -/
def noteWithId (i : Int) : Notification :=
  { idField := some i, payload := "p" }

/-- A notification dict with no `id` field. -/
def noIdNote : Notification :=
  { idField := none, payload := "p" }

/-- Both sinks enabled, the Pushbullet deliver call raises, everything
downstream would succeed. -/
def bothSinksEnv : SendEnv :=
  { pushbullet_state := 1, webhook_state := 1,
    pushbulletResult := Except.error (),
    userLookup := Except.ok
      [UserInfo.mk "Alice" "https://img.example.org/a.png"],
    discordResult := Except.ok () }

/-- Discord enabled, Pushbullet disabled, and the user-lookup call raises. -/
def lookupFailEnv : SendEnv :=
  { pushbullet_state := 0, webhook_state := 1,
    pushbulletResult := Except.ok (),
    userLookup := Except.error (),
    discordResult := Except.ok () }

/-- Discord enabled, Pushbullet disabled, and the Discord deliver call
raises. -/
def discordFailEnv : SendEnv :=
  { pushbullet_state := 0, webhook_state := 1,
    pushbulletResult := Except.ok (),
    userLookup := Except.ok [],
    discordResult := Except.error () }

/-- A configuration with every key the two embedded files read present and
truthy. -/
def fullConfig : Config :=
  { moodle_url := some "https://moodle.example.org",
    moodle_username := some "user",
    moodle_password := some "pw",
    pushbullet_api_key := some "pbkey",
    pushbullet_enabled := some "1",
    discord_webhook_url := some "https://discord.example.org/hook",
    discord_enabled := some "1",
    summary_model := some "gpt" }

/-- `fullConfig` with the required `pushbullet.PUSHBULLET_API_KEY` removed. -/
def noPushbulletKeyConfig : Config :=
  { fullConfig with pushbullet_api_key := none }

/-- C3: with the cursor unset, a fetched notification with a valid id
classifies as First and the cursor is set to that id; with the cursor set,
an id greater than the cursor classifies as New and the cursor becomes that
id, while an id less than or equal to the cursor classifies as Stale with
the cursor unchanged. -/
theorem classifier_correct (n : Notification) (nid l : Int)
    (h : n.idField = some nid) :
    fetch_newest_step none (some n) =
      { cursor := some nid, ret := some n, verdict := Verdict.First,
        warned := false } ∧
    fetch_newest_step (some l) (some n) =
      (if nid > l then
        { cursor := some nid, ret := some n, verdict := Verdict.New,
          warned := false }
      else
        { cursor := some l, ret := none, verdict := Verdict.Stale,
          warned := false }) := by
  refine ⟨?_, ?_⟩ <;> simp [fetch_newest_step, h]

/-- C3 witness: the theorem instantiated at a notification with id 7 and
cursor 5, matching the concrete scenario of the claim. -/
theorem classifier_correct_witness :
    (noteWithId 7).idField = some 7 ∧
    (fetch_newest_step none (some (noteWithId 7)) =
      { cursor := some 7, ret := some (noteWithId 7),
        verdict := Verdict.First, warned := false } ∧
    fetch_newest_step (some 5) (some (noteWithId 7)) =
      (if (7 : Int) > 5 then
        { cursor := some 7, ret := some (noteWithId 7),
          verdict := Verdict.New, warned := false }
      else
        { cursor := some 5, ret := none, verdict := Verdict.Stale,
          warned := false })) :=
  ⟨rfl, classifier_correct (noteWithId 7) 7 5 rfl⟩

/-- One polling attempt never decreases a set cursor. -/
theorem cursorStep_mono (x : Int) (o : FetchOutcome) :
    ∃ y, cursorStep (some x) o = some y ∧ x ≤ y := by
  cases o with
  | failure => exact ⟨x, rfl, le_refl x⟩
  | success r =>
    cases r with
    | none => exact ⟨x, rfl, le_refl x⟩
    | some n =>
      cases hn : n.idField with
      | none =>
        exact ⟨x, by simp [cursorStep, fetch_newest_step, hn], le_refl x⟩
      | some nid =>
        by_cases hgt : nid > x
        · exact ⟨nid, by simp [cursorStep, fetch_newest_step, hn, hgt],
            le_of_lt hgt⟩
        · exact ⟨x, by simp [cursorStep, fetch_newest_step, hn, hgt],
            le_refl x⟩

/-- A whole run of polling attempts never decreases a set cursor. -/
theorem runCursor_mono (os : List FetchOutcome) (x : Int) :
    ∃ y, runCursor (some x) os = some y ∧ x ≤ y := by
  induction os generalizing x with
  | nil => exact ⟨x, rfl, le_refl x⟩
  | cons o os ih =>
    obtain ⟨y, hy, hxy⟩ := cursorStep_mono x o
    obtain ⟨z, hz, hyz⟩ := ih y
    refine ⟨z, ?_, le_trans hxy hyz⟩
    simpa [runCursor, List.foldl_cons, hy] using hz

/-- C4: once set, the cursor is monotonically non-decreasing over any
sequence of fetch outcomes; it is unchanged on anything but a First or New
verdict (in particular on Stale, Absent, and fetch failure), strictly
increases on New, and becomes set on First. -/
theorem cursor_monotone (x : Int) (os : List FetchOutcome) :
    (∃ y, runCursor (some x) os = some y ∧ x ≤ y) ∧
    (∀ (last : Option Int) (o : FetchOutcome),
      outcomeVerdict last o ≠ some Verdict.First →
      outcomeVerdict last o ≠ some Verdict.New →
      cursorStep last o = last) ∧
    (∀ (l : Int) (o : FetchOutcome),
      outcomeVerdict (some l) o = some Verdict.New →
      ∃ y, cursorStep (some l) o = some y ∧ l < y) ∧
    (∀ (o : FetchOutcome), outcomeVerdict none o = some Verdict.First →
      ∃ y, cursorStep none o = some y) := by
  refine ⟨runCursor_mono os x, ?_, ?_, ?_⟩
  · intro last o h1 h2
    cases o with
    | failure => rfl
    | success r =>
      cases r with
      | none => rfl
      | some n =>
        cases hn : n.idField with
        | none => simp [cursorStep, fetch_newest_step, hn]
        | some nid =>
          cases last with
          | none =>
            exact absurd (by simp [outcomeVerdict, fetch_newest_step, hn]) h1
          | some l =>
            by_cases hgt : nid > l
            · exact absurd
                (by simp [outcomeVerdict, fetch_newest_step, hn, hgt]) h2
            · simp [cursorStep, fetch_newest_step, hn, hgt]
  · intro l o h
    cases o with
    | failure => simp [outcomeVerdict] at h
    | success r =>
      cases r with
      | none => simp [outcomeVerdict, fetch_newest_step] at h
      | some n =>
        cases hn : n.idField with
        | none => simp [outcomeVerdict, fetch_newest_step, hn] at h
        | some nid =>
          by_cases hgt : nid > l
          · exact ⟨nid, by simp [cursorStep, fetch_newest_step, hn, hgt],
              hgt⟩
          · simp [outcomeVerdict, fetch_newest_step, hn, hgt] at h
  · intro o h
    cases o with
    | failure => simp [outcomeVerdict] at h
    | success r =>
      cases r with
      | none => simp [outcomeVerdict, fetch_newest_step] at h
      | some n =>
        cases hn : n.idField with
        | none => simp [outcomeVerdict, fetch_newest_step, hn] at h
        | some nid =>
          exact ⟨nid, by simp [cursorStep, fetch_newest_step, hn]⟩

/-- C4 witness: the monotonicity part of the theorem at a concrete state and
a concrete run containing a failure, a New fetch and a Stale fetch. -/
theorem cursor_monotone_witness :
    ∃ y, runCursor (some 5)
        [FetchOutcome.failure, FetchOutcome.success (some (noteWithId 7)),
          FetchOutcome.success none] = some y ∧ 5 ≤ y :=
  (cursor_monotone 5
    [FetchOutcome.failure, FetchOutcome.success (some (noteWithId 7)),
      FetchOutcome.success none]).1

/-- The retry loop sleeps `d, d+2, d+4, ...` through `n` failed attempts and
returns the first successful response without a further sleep. -/
theorem retry_sleeps (n : Nat) (d : Int) (r : List Notification) :
    fetch_latest_go d (List.replicate n (Except.error ()) ++ [Except.ok r]) =
      (some r.head?, (List.range n).map fun i : Nat => d + 2 * (i : Int)) := by
  induction n generalizing d with
  | zero => simp [fetch_latest_go]
  | succ n ih =>
    rw [List.replicate_succ, List.cons_append]
    have hmap : ((List.range n).map fun i : Nat => d + 2 + 2 * (i : Int)) =
        (List.range n).map ((fun i : Nat => d + 2 * (i : Int)) ∘ Nat.succ) := by
      refine List.map_congr_left fun i _ => ?_
      simp [Function.comp]
      ring
    simp [fetch_latest_go, ih, List.range_succ_eq_map, List.map_map, hmap]

/-- C5: against an operation failing twice then succeeding, the retrying
fetch performs exactly the sleeps 60 and 62 and returns the value produced
from the third, successful response; in general, `n` failures produce the
unbounded linear sleep sequence `60, 62, 64, ...` with no retry or delay
cap. -/
theorem retry_backoff (resp : List Notification) :
    fetch_latest_notification
        [Except.error (), Except.error (), Except.ok resp] =
      (some resp.head?, [60, 62]) ∧
    ∀ (n : Nat) (d : Int) (r : List Notification),
      fetch_latest_go d
          (List.replicate n (Except.error ()) ++ [Except.ok r]) =
        (some r.head?, (List.range n).map fun i : Nat => d + 2 * (i : Int)) :=
  ⟨by simp [fetch_latest_notification, fetch_latest_go],
    fun n d r => retry_sleeps n d r⟩

/-- C7: a fetched notification without an `id` field leaves the cursor
unchanged, returns None (nothing to dispatch), classifies as Absent, and
logs the missing-id warning; the branch returns normally rather than
raising. -/
theorem missing_id_absent (last : Option Int) (n : Notification)
    (h : n.idField = none) :
    fetch_newest_step last (some n) =
      { cursor := last, ret := none, verdict := Verdict.Absent,
        warned := true } := by
  simp [fetch_newest_step, h]

/-- C7 witness: the theorem at cursor 5 and a concrete id-less
notification. -/
theorem missing_id_absent_witness :
    noIdNote.idField = none ∧
    fetch_newest_step (some 5) (some noIdNote) =
      { cursor := some 5, ret := none, verdict := Verdict.Absent,
        warned := true } :=
  ⟨rfl, missing_id_absent (some 5) noIdNote rfl⟩

/-- C8: a fetch whose response has an empty `notifications` list makes
`fetch_latest_notification` return None with no retry sleep, and a None
fetch result classifies as Absent with the cursor unchanged and nothing
returned for dispatch, whatever the cursor state. -/
theorem no_notifications_absent (last : Option Int)
    (rest : List PopupResult) :
    fetch_latest_notification (Except.ok [] :: rest) = (some none, []) ∧
    fetch_newest_step last none =
      { cursor := last, ret := none, verdict := Verdict.Absent,
        warned := false } :=
  ⟨rfl, rfl⟩

/-- C10: the public fetch-newest body returns the fetched notification
exactly on a First or New verdict, and returns None on both Absent and
Stale, so the caller cannot tell those two apart from the return value. -/
theorem returns_iff_first_or_new (last : Option Int)
    (fetched : Option Notification) :
    (fetch_newest_step last fetched).ret =
      (if (fetch_newest_step last fetched).verdict = Verdict.First ∨
          (fetch_newest_step last fetched).verdict = Verdict.New
        then fetched else none) := by
  cases fetched with
  | none => simp [fetch_newest_step]
  | some n =>
    cases hn : n.idField with
    | none => simp [fetch_newest_step, hn]
    | some nid =>
      cases last with
      | none => simp [fetch_newest_step, hn]
      | some l =>
        by_cases hgt : nid > l <;> simp [fetch_newest_step, hn, hgt]

/-- C1 counterexample: with both sinks enabled and the Pushbullet deliver
raising, the dispatch performs no Discord deliver call at all — the first
sink's failure is not isolated from the second sink. -/
theorem sink_isolation_counterexample :
    bothSinksEnv.pushbullet_state = 1 ∧ bothSinksEnv.webhook_state = 1 ∧
    bothSinksEnv.pushbulletResult = Except.error () ∧
    (send bothSinksEnv "subject" "text" "summary" none).1.filter
        Event.isDiscordDeliver = [] := by
  refine ⟨rfl, rfl, rfl, ?_⟩
  rfl

/-- C1 amended: when Pushbullet is enabled and its deliver raises, the
exception aborts the shared try block: the failure is logged, but the
enabled Discord sink does not receive its deliver call. -/
theorem sink_failure_not_isolated (env : SendEnv)
    (subject text summary : String) (uid : Option Int)
    (hp : env.pushbullet_state = 1)
    (hf : env.pushbulletResult = Except.error ()) :
    (send env subject text summary uid).1.filter Event.isDiscordDeliver
        = [] ∧
    Event.logSendFailure ∈ (send env subject text summary uid).1 := by
  simp [send, handle_exceptions, send_body, send_try, hp, hf,
    Event.isDiscordDeliver]

/-- C1 amended witness: the amended theorem at the concrete two-sink
environment. -/
theorem sink_failure_not_isolated_witness :
    bothSinksEnv.pushbullet_state = 1 ∧
    bothSinksEnv.pushbulletResult = Except.error () ∧
    ((send bothSinksEnv "s" "t" "m" none).1.filter Event.isDiscordDeliver
        = [] ∧
      Event.logSendFailure ∈ (send bothSinksEnv "s" "t" "m" none).1) :=
  ⟨rfl, rfl, sink_failure_not_isolated bothSinksEnv "s" "t" "m" none rfl rfl⟩

/-- C2: at the failing input (a senderUserId supplied, the user lookup
raising, Discord enabled) the send body performs no deliver call at all and
raises from subscripting the None lookup result, instead of using the
default placeholder identity; the placeholder identity is only used when no
senderUserId is supplied. -/
theorem lookup_failure_suppresses_delivery :
    user_id_from lookupFailEnv.userLookup = none ∧
    send_body lookupFailEnv "subject" "text" "summary" (some 13) =
      ([Event.logSendFailure], true) ∧
    (send_body lookupFailEnv "subject" "text" "summary" none).1 =
      [Event.discordDeliver "subject" "text" "summary" "EvickaStudio"
        "https://avatars.githubusercontent.com/u/68477970"] :=
  ⟨rfl, rfl, rfl⟩

/-- C6: the decorated `send` never re-raises to its caller, and whenever its
undecorated body raised — as it does when an enabled sink's deliver fails —
the failure log event is in the produced trace. -/
theorem send_failure_not_reraised (env : SendEnv)
    (subject text summary : String) (uid : Option Int) :
    (send env subject text summary uid).2 = false ∧
    ((send_body env subject text summary uid).2 = true →
      Event.logSendFailure ∈ (send env subject text summary uid).1) := by
  constructor
  · rfl
  · intro h
    by_cases hr : (send_try env subject text summary uid).2 = true
    · simp [send, handle_exceptions, send_body, hr]
    · simp [send_body, hr] at h

/-- C6 witness: at a concrete environment whose Discord deliver raises, the
body raises internally, yet the decorated call logs the failure and returns
normally. -/
theorem send_failure_not_reraised_witness :
    (send_body discordFailEnv "s" "t" "m" none).2 = true ∧
    Event.logSendFailure ∈ (send discordFailEnv "s" "t" "m" none).1 :=
  ⟨rfl, (send_failure_not_reraised discordFailEnv "s" "t" "m" none).2 rfl⟩

/-- C9 counterexample: with every other key present, removing the
`pushbullet.PUSHBULLET_API_KEY` key does not make construction fail: the
sender initializer body completes normally, storing the absent key. -/
theorem missing_key_not_fatal_counterexample :
    get_config noPushbulletKeyConfig "pushbullet" "PUSHBULLET_API_KEY"
        = none ∧
    notification_sender_init noPushbulletKeyConfig =
      Except.ok
        { pushbullet_key := none, pushbullet_state := 1,
          webhook_url := some "https://discord.example.org/hook",
          webhook_state := 1, model := some "gpt" } :=
  ⟨rfl, rfl⟩

/-- Chaining an `Except` computation with a continuation of constant success
status multiplies the success statuses. -/
theorem exceptOk_bind {α β : Type} (x : Except String α)
    (f : α → Except String β) (b : Bool) (hf : ∀ a, exceptOk (f a) = b) :
    exceptOk (x >>= f) = (exceptOk x && b) := by
  cases x with
  | error e => rfl
  | ok a => exact hf a

/-- The `_get_config_value` helper succeeds exactly on truthy values. -/
theorem _get_config_value_ok (c : Config) (s k : String) :
    exceptOk (_get_config_value c s k) = truthy (get_config c s k) := by
  cases hg : get_config c s k with
  | none => simp [_get_config_value, truthy, exceptOk, hg]
  | some v =>
    by_cases hv : v = "" <;>
      simp [_get_config_value, truthy, exceptOk, hg, hv]

/-- The Moodle handler constructor succeeds exactly when the three moodle
keys are present and truthy. -/
theorem moodle_handler_init_ok (c : Config) :
    exceptOk (moodle_handler_init c) =
      (truthy c.moodle_url && truthy c.moodle_username &&
        truthy c.moodle_password) := by
  have h1 : get_config c "moodle" "MOODLE_URL" = c.moodle_url := by
    simp [get_config]
  have h2 : get_config c "moodle" "MOODLE_USERNAME" = c.moodle_username := by
    simp [get_config]
  have h3 : get_config c "moodle" "MOODLE_PASSWORD" = c.moodle_password := by
    simp [get_config]
  unfold moodle_handler_init
  rw [exceptOk_bind _ _
    (truthy c.moodle_username && truthy c.moodle_password)]
  · rw [_get_config_value_ok, h1, Bool.and_assoc]
  · intro a
    rw [exceptOk_bind _ _ (truthy c.moodle_password)]
    · rw [_get_config_value_ok, h2]
    · intro b
      rw [exceptOk_bind _ _ true]
      · rw [_get_config_value_ok, h3, Bool.and_true]
      · intro d
        rfl

/-- The sender constructor body succeeds exactly when the two ENABLED flags
parse as ints and the three moodle keys are truthy; the credential keys play
no role in success. -/
theorem notification_sender_init_ok (c : Config) :
    exceptOk (notification_sender_init c) =
      (exceptOk (py_int c.pushbullet_enabled) &&
        exceptOk (py_int c.discord_enabled) &&
        (truthy c.moodle_url && truthy c.moodle_username &&
          truthy c.moodle_password)) := by
  have h4 : get_config c "pushbullet" "ENABLED" = c.pushbullet_enabled := by
    simp [get_config]
  have h5 : get_config c "discord" "ENABLED" = c.discord_enabled := by
    simp [get_config]
  unfold notification_sender_init
  rw [h4, h5]
  rw [exceptOk_bind _ _
    (exceptOk (py_int c.discord_enabled) &&
      (truthy c.moodle_url && truthy c.moodle_username &&
        truthy c.moodle_password))]
  · simp [Bool.and_assoc]
  · intro p
    dsimp only
    rw [exceptOk_bind _ _
      (truthy c.moodle_url && truthy c.moodle_username &&
        truthy c.moodle_password)]
    intro w
    dsimp only
    rw [exceptOk_bind _ _ true]
    · rw [moodle_handler_init_ok, Bool.and_true]
    · intro d
      rfl

/-- C9 amended: component construction fails exactly on a missing or empty
moodle MOODLE_URL, MOODLE_USERNAME or MOODLE_PASSWORD (which raise in
`_get_config_value`) and on an absent or unparsable pushbullet/discord
ENABLED flag (where `int(...)` raises); the PUSHBULLET_API_KEY, WEBHOOK_URL
and summary MODEL keys are read without any missing-value check, so their
absence is not a startup error. -/
theorem missing_key_fatality (c : Config) :
    exceptOk (moodle_handler_init c) =
      (truthy c.moodle_url && truthy c.moodle_username &&
        truthy c.moodle_password) ∧
    exceptOk (notification_sender_init c) =
      (exceptOk (py_int c.pushbullet_enabled) &&
        exceptOk (py_int c.discord_enabled) &&
        (truthy c.moodle_url && truthy c.moodle_username &&
          truthy c.moodle_password)) ∧
    exceptOk (py_int none) = false :=
  ⟨moodle_handler_init_ok c, notification_sender_init_ok c, rfl⟩

end MoodleStalker
